import Mathlib

/-!
Verification of the itinerary-generation gateway (Go backend `main.go`)
against its natural-language specification.

The development shallowly embeds the backend:
* pure helpers (prompt construction, brace-slicing sanitization, CORS
  header assembly) become Lean functions;
* the outbound network call and the standard-library JSON codec are
  external effects, so they enter as explicit oracle parameters: the
  upstream HTTP outcome is a value of `HttpOutcome`, and each
  `json.Unmarshal` call site is a function parameter
  (`String to Option ...`) standing for the stdlib decoder;
* Go `float64` values are modelled as rationals, and `fmt.Sprintf`
  with the `%.2f` verb as decimal rendering with two fractional digits
  (half-up at ties, an abstraction of the binary-float rounding).
-/

/-- TravelPlanRequest mirrors the Go struct: the expected JSON body for
the /api/route endpoint (fields source, destination, budget). -/
structure TravelPlanRequest where
  source : String
  destination : String
  budget : Rat
deriving Repr, DecidableEq

/-- JsonVal models the dynamic Go type interface\x7b\x7d used for the
per-day expense values: an arbitrary JSON value. -/
inductive JsonVal where
  | null : JsonVal
  | bool : Bool → JsonVal
  | num : Rat → JsonVal
  | str : String → JsonVal
  | arr : List JsonVal → JsonVal
  | obj : List (String × JsonVal) → JsonVal

/-- DayPlan mirrors the Go struct: one day of the itinerary. -/
structure DayPlan where
  day : Int
  activities : String
  expenses : List (String × JsonVal)

/-- TravelPlanResponse mirrors the Go struct: the JSON response for a
successfully planned trip. -/
structure TravelPlanResponse where
  source : String
  destination : String
  budget : Rat
  days : List DayPlan

/-- OpenRouterMessage mirrors the Go struct (fields role, content). -/
structure OpenRouterMessage where
  role : String
  content : String

/-- OpenRouterRequest mirrors the Go struct (fields model, messages). -/
structure OpenRouterRequest where
  model : String
  messages : List OpenRouterMessage

/-- The message part of one completion choice (field content). -/
structure ORMessage where
  content : String

/-- One element of the choices array of the upstream envelope. -/
structure ORChoice where
  message : ORMessage

/-- The optional error object of the upstream envelope (field message). -/
structure ORErrorBody where
  message : String

/-- OpenRouterResponse mirrors the Go struct: the decoded upstream
envelope, with a choices array and an optional error object. -/
structure OpenRouterResponse where
  choices : List ORChoice
  error : Option ORErrorBody

/-- The outcome of the single outbound HTTP exchange performed by
callOpenRouter: either the transport errored (request send or body
read), or a status code and a raw response body were obtained. -/
inductive HttpOutcome where
  | err : String → HttpOutcome
  | ok : Nat → String → HttpOutcome

/-- The outcome of decoding the inbound request body
(json.NewDecoder(r.Body).Decode at main.go line 113): either the
decoder failed with an error message, or it produced a request. -/
inductive BodyDecode where
  | failed : String → BodyDecode
  | ok : TravelPlanRequest → BodyDecode

/-- Embedding of Go strings.Index specialised to one character: the
index of the first occurrence of c in s, or none where Go returns -1.
All characters relevant to the backend are ASCII, so byte indices and
character indices coincide. -/
def strIndex : List Char → Char → Option Nat
  | [], _ => none
  | x :: xs, c => if x = c then some 0 else (strIndex xs c).map (· + 1)

/-- Embedding of Go strings.LastIndex specialised to one character: the
index of the last occurrence of c in s, or none where Go returns -1. -/
def strLastIndex : List Char → Char → Option Nat
  | [], _ => none
  | x :: xs, c =>
    match strLastIndex xs c with
    | some j => some (j + 1)
    | none => if x = c then some 0 else none

/-- The sanitization step of handleRoute (main.go lines 138-147): find
the first opening brace and the last closing brace; fail when either is
absent or the last closing brace precedes the first opening brace;
otherwise slice inclusively between them. -/
def extractJSON (s : String) : Option String :=
  match strIndex s.data '{', strLastIndex s.data '}' with
  | some startIndex, some endIndex =>
    if endIndex < startIndex then none
    else some (String.mk ((s.data.drop startIndex).take (endIndex + 1 - startIndex)))
  | _, _ => none

/-- The character for a single decimal digit (0 le d le 9). -/
def digitChar (d : Nat) : Char := Char.ofNat (48 + d)

/-- Fuel-driven accumulator rendering of a natural number in base 10;
the fuel is structural so that the kernel can evaluate it. -/
def natCharsAux : Nat → Nat → List Char → List Char
  | 0, _, acc => acc
  | fuel + 1, n, acc =>
    if n < 10 then digitChar n :: acc
    else natCharsAux fuel (n / 10) (digitChar (n % 10) :: acc)

/-- Decimal digit string of a natural number (no sign, no point). -/
def natChars (n : Nat) : List Char := natCharsAux (n + 1) n []

/-- Exactly two decimal digits for m < 100, zero-padded, matching the
fractional part printed by the %.2f verb. -/
def twoDigitChars (m : Nat) : List Char := [digitChar (m / 10), digitChar (m % 10)]

/-- Character-level model of fmt.Sprintf %.2f applied to the budget:
optional minus sign, integer part, a decimal point, and exactly two
fractional digits. -/
def formatFloat2Chars (q : Rat) : List Char :=
  (if q < 0 then ['-'] else []) ++
    natChars ((round (|q| * 100)).toNat / 100) ++
    '.' :: twoDigitChars ((round (|q| * 100)).toNat % 100)

/-- Model of fmt.Sprintf "%.2f" on a budget value. -/
def formatFloat2 (q : Rat) : String := String.mk (formatFloat2Chars q)

/-- Decidable check that a rendered number ends in a decimal point
followed by exactly two digits, with no other decimal point. -/
def twoDecimal (s : String) : Bool :=
  match s.data.reverse with
  | d2 :: d1 :: dot :: rest =>
    d1.isDigit && d2.isDigit && (dot == '.') && rest.all (fun c => c != '.')
  | _ => false

/-- The system message passed to callOpenRouter at main.go line 130. -/
def systemMessage : String := "You are a professional travel planner AI."

/-- The user prompt built by handleRoute (main.go lines 119-127): the
fmt.Sprintf format string with source, destination and budget
substituted, the budget through the %.2f verb. -/
def buildPrompt (r : TravelPlanRequest) : String :=
  "Plan a detailed travel itinerary from " ++ r.source ++ " to " ++ r.destination ++
    " with a strict budget of INR " ++ formatFloat2 r.budget ++
    ". The plan must be day-wise, including specific activities and estimated expenses for each day. " ++
    "Your entire response must be a single, valid JSON object following this exact structure: " ++
    "\x7b\"source\": \"" ++ r.source ++ "\", \"destination\": \"" ++ r.destination ++
    "\", \"budget\": " ++ formatFloat2 r.budget ++
    ", \"days\": [\x7b\"day\": 1, \"activities\": \"...\", \"expenses\": ...\x7d]\x7d. " ++
    "Do not include any text, explanations, or markdown formatting outside of this JSON object."

/-- The outbound payload constructed by callOpenRouter
(main.go lines 172-178): fixed model identifier, system message then
user prompt. -/
def openRouterPayload (prompt sysMsg : String) : OpenRouterRequest :=
  { model := "gpt-4o-mini"
  , messages := [⟨"system", sysMsg⟩, ⟨"user", prompt⟩] }

/-- The API-level error test of main.go line 223:
result.Error is non-nil and result.Error.Message is non-empty. -/
def openRouterApiErrorSet (r : OpenRouterResponse) : Bool :=
  match r.error with
  | some e => e.message != ""
  | none => false

/-- Embedding of callOpenRouter (main.go lines 168-233).  The network
exchange is the oracle parameter outcome; unmarshal stands for
json.Unmarshal applied to the raw body against OpenRouterResponse.
The prompt and system message are carried for fidelity to the call
shape but the response path never depends on them, exactly as in the
source, where they only feed the outbound payload. -/
def callOpenRouter (prompt sysMsg : String) (outcome : HttpOutcome)
    (unmarshal : String → Option OpenRouterResponse) : Except String String :=
  match outcome with
  | HttpOutcome.err m => Except.error ("failed to send request to OpenRouter: " ++ m)
  | HttpOutcome.ok status body =>
    if status ≠ 200 then
      Except.error ("received non-200 status code (" ++ toString status ++ "): " ++ body)
    else
      match unmarshal body with
      | none => Except.error "failed to unmarshal OpenRouter response"
      | some result =>
        if openRouterApiErrorSet result then
          Except.error ("OpenRouter API error: " ++
            (match result.error with | some e => e.message | none => ""))
        else
          match result.choices with
          | [] => Except.error "received an empty response from AI"
          | c :: _ =>
            if c.message.content = "" then Except.error "received an empty response from AI"
            else Except.ok c.message.content

/-- Header list update with Go http.Header.Set semantics: replace the
value of an existing key, or append the pair. -/
def setHeader (hs : List (String × String)) (k v : String) : List (String × String) :=
  match hs with
  | [] => [(k, v)]
  | (k0, v0) :: rest => if k0 = k then (k, v) :: rest else (k0, v0) :: setHeader rest k v

/-- First-match header lookup. -/
def getHeader (hs : List (String × String)) (k : String) : Option String :=
  match hs with
  | [] => none
  | (k0, v) :: rest => if k0 = k then some v else getHeader rest k

/-- Embedding of enableCORS (main.go lines 236-240): sets the three
CORS headers on the response writer. -/
def enableCORS (hs : List (String × String)) : List (String × String) :=
  setHeader
    (setHeader
      (setHeader hs "Access-Control-Allow-Origin" "*")
      "Access-Control-Allow-Methods" "POST, OPTIONS")
    "Access-Control-Allow-Headers" "Content-Type, Authorization"

/-- The observable result of one handleRoute invocation: response
status, response headers, the plain-text body written by http.Error on
failure paths, the travel plan serialized as the JSON body on the
success path, and the list of (prompt, system message) pairs sent to
the Completion Client during the invocation. -/
structure RouteResult where
  status : Nat
  headers : List (String × String)
  errorBody : Option String
  plan : Option TravelPlanResponse
  upstreamCalls : List (String × String)

/-- Model of Go net/http.Error: sets Content-Type to
text/plain; charset=utf-8 and X-Content-Type-Options to nosniff on the
already-populated header map, writes the status code, and writes the
message followed by a newline as the body. -/
def httpErrorResult (hs : List (String × String)) (msg : String) (code : Nat)
    (calls : List (String × String)) : RouteResult :=
  { status := code
  , headers := setHeader (setHeader hs "Content-Type" "text/plain; charset=utf-8")
      "X-Content-Type-Options" "nosniff"
  , errorBody := some (msg ++ "\n")
  , plan := none
  , upstreamCalls := calls }

/-- Embedding of handleRoute (main.go lines 97-163).  The inbound body
decode, the upstream HTTP outcome and the two json.Unmarshal call
sites are oracle parameters; everything else is transcribed
branch-for-branch from the source. -/
def handleRoute (method : String) (body : BodyDecode) (upstream : HttpOutcome)
    (unmarshalEnvelope : String → Option OpenRouterResponse)
    (unmarshalPlan : String → Option TravelPlanResponse) : RouteResult :=
  let hs := enableCORS []
  if method = "OPTIONS" then
    { status := 200, headers := hs, errorBody := none, plan := none, upstreamCalls := [] }
  else if method ≠ "POST" then
    httpErrorResult hs "Invalid request method. Use POST." 405 []
  else
    match body with
    | BodyDecode.failed msg =>
      httpErrorResult hs ("Invalid request body: " ++ msg) 400 []
    | BodyDecode.ok reqData =>
      let prompt := buildPrompt reqData
      match callOpenRouter prompt systemMessage upstream unmarshalEnvelope with
      | Except.error e =>
        httpErrorResult hs ("Failed to get response from AI: " ++ e) 500
          [(prompt, systemMessage)]
      | Except.ok aiResponseContent =>
        match extractJSON aiResponseContent with
        | none =>
          httpErrorResult hs "AI returned a response that could not be understood as a travel plan." 500
            [(prompt, systemMessage)]
        | some cleanedJSON =>
          match unmarshalPlan cleanedJSON with
          | none =>
            httpErrorResult hs "AI returned an invalid format. Please try again." 500
              [(prompt, systemMessage)]
          | some travelPlan =>
            { status := 200
            , headers := setHeader hs "Content-Type" "application/json"
            , errorBody := none
            , plan := some travelPlan
            , upstreamCalls := [(prompt, systemMessage)] }

/-- The route table registered by main (main.go lines 83-92): a single
http.HandleFunc call for /api/route; no other path is registered. -/
def registeredRoutes : List String := ["/api/route"]

/-- The JSON object of the section-8 round-trip example. -/
def ex8Json : String :=
  "\x7b\"source\":\"Delhi\",\"destination\":\"Goa\",\"budget\":20000,\"days\":[\x7b\"day\":1,\"activities\":\"Beach\",\"expenses\":\x7b\"food\":500\x7d\x7d]\x7d"

/-- The travel plan that encoding/json produces for ex8Json. -/
def ex8Plan : TravelPlanResponse :=
  { source := "Delhi", destination := "Goa", budget := 20000
  , days := [{ day := 1, activities := "Beach", expenses := [("food", JsonVal.num 500)] }] }

/-- Stub for json.Unmarshal against the plan shape, agreeing with the
Go decoder on the one input it is applied to. -/
def ex8Decode (s : String) : Option TravelPlanResponse :=
  if s = ex8Json then some ex8Plan else none

/-- A refusal completion with no braces, as first choice content. -/
def refusalEnvelope : OpenRouterResponse :=
  { choices := [{ message := { content := "Sorry, I cannot help." } }], error := none }

/-- A completion whose only closing brace precedes its only opening
brace, as first choice content. -/
def invertedEnvelope : OpenRouterResponse :=
  { choices := [{ message := { content := "\x7d some text \x7b" } }], error := none }

/-- A well-formed model reply whose echoed source, destination and
budget differ from every request used with it. -/
def marsJson : String :=
  "\x7b\"source\":\"Mars\",\"destination\":\"Pluto\",\"budget\":1,\"days\":[]\x7d"

/-- The plan that encoding/json produces for marsJson. -/
def marsPlan : TravelPlanResponse :=
  { source := "Mars", destination := "Pluto", budget := 1, days := [] }

/-- A stub upstream envelope whose first choice content is marsJson. -/
def marsEnvelope : OpenRouterResponse :=
  { choices := [{ message := { content := marsJson } }], error := none }

/-- Stub for json.Unmarshal of the upstream envelope, agreeing with the
Go decoder on the single raw body used with it. -/
def marsUnmarshalEnvelope : String → Option OpenRouterResponse := fun _ => some marsEnvelope

/-- Stub for json.Unmarshal against the plan shape, agreeing with the
Go decoder on the one input it is applied to. -/
def marsUnmarshalPlan : String → Option TravelPlanResponse :=
  fun s => if s = marsJson then some marsPlan else none

theorem strIndex_eq_none (l : List Char) (c : Char) (h : c ∉ l) : strIndex l c = none := by
  induction l with
  | nil => rfl
  | cons x xs ih =>
    simp only [List.mem_cons, not_or] at h
    have hxc : ¬x = c := fun hx => h.1 hx.symm
    simp [strIndex, hxc, ih h.2]

theorem strLastIndex_eq_none (l : List Char) (c : Char) (h : c ∉ l) :
    strLastIndex l c = none := by
  induction l with
  | nil => rfl
  | cons x xs ih =>
    simp only [List.mem_cons, not_or] at h
    have hxc : ¬x = c := fun hx => h.1 hx.symm
    rw [strLastIndex, ih h.2]
    simp [hxc]

theorem strIndex_append_of_not_mem (a b : List Char) (c : Char) (h : c ∉ a) :
    strIndex (a ++ b) c = (strIndex b c).map (· + a.length) := by
  induction a with
  | nil =>
    cases hb : strIndex b c <;> simp [hb]
  | cons x xs ih =>
    simp only [List.mem_cons, not_or] at h
    have hxc : ¬x = c := fun hx => h.1 hx.symm
    rw [List.cons_append, strIndex, if_neg hxc, ih h.2]
    cases hb : strIndex b c with
    | none => simp [hb]
    | some j =>
      simp [hb]
      omega

theorem strLastIndex_append (a b : List Char) (c : Char) :
    strLastIndex (a ++ b) c =
      match strLastIndex b c with
      | some j => some (a.length + j)
      | none => strLastIndex a c := by
  induction a with
  | nil =>
    cases hb : strLastIndex b c <;> simp [hb, strLastIndex]
  | cons x xs ih =>
    rw [List.cons_append, strLastIndex, ih]
    cases hb : strLastIndex b c with
    | none =>
      simp only [hb]
      rw [strLastIndex]
    | some j =>
      simp [hb]
      omega

theorem strLastIndex_getLast (l : List Char) (c : Char) (h : l.getLast? = some c) :
    strLastIndex l c = some (l.length - 1) := by
  induction l with
  | nil => simp at h
  | cons x xs ih =>
    cases xs with
    | nil =>
      simp only [List.getLast?_singleton, Option.some_inj] at h
      subst h
      simp [strLastIndex]
    | cons y ys =>
      rw [List.getLast?_cons_cons] at h
      have hx := ih h
      rw [strLastIndex, hx]
      simp [List.length_cons]

/-- Brace slicing recovers a brace-delimited payload exactly, whatever
brace-free prefix (whitespace, opening fence, language tag) and
brace-free suffix (closing fence, whitespace) surround it. -/
theorem extractJSON_embed (pre j suf : String)
    (hpre : '{' ∉ pre.data) (hsuf : '}' ∉ suf.data)
    (hhead : j.data.head? = some '{') (hlast : j.data.getLast? = some '}') :
    extractJSON (pre ++ j ++ suf) = some j := by
  have hdata : (pre ++ j ++ suf).data = pre.data ++ (j.data ++ suf.data) := by
    show (pre.data ++ j.data) ++ suf.data = pre.data ++ (j.data ++ suf.data)
    exact List.append_assoc _ _ _
  have hjlen : 1 ≤ j.data.length := by
    cases hj : j.data with
    | nil => rw [hj] at hhead; simp at hhead
    | cons a t => simp [hj]
  have h1 : strIndex (pre ++ j ++ suf).data '{' = some pre.data.length := by
    rw [hdata, strIndex_append_of_not_mem _ _ _ hpre]
    cases hj : j.data with
    | nil => rw [hj] at hhead; simp at hhead
    | cons a t =>
      rw [hj] at hhead
      simp only [List.head?_cons, Option.some_inj] at hhead
      subst hhead
      rw [List.cons_append]
      simp [strIndex]
  have hinner : strLastIndex (j.data ++ suf.data) '}' = some (j.data.length - 1) := by
    rw [strLastIndex_append, strLastIndex_eq_none _ _ hsuf]
    exact strLastIndex_getLast _ _ hlast
  have h2 : strLastIndex (pre ++ j ++ suf).data '}' =
      some (pre.data.length + (j.data.length - 1)) := by
    rw [hdata, strLastIndex_append, hinner]
  simp only [extractJSON, h1, h2]
  rw [if_neg (by omega)]
  have harith : pre.data.length + (j.data.length - 1) + 1 - pre.data.length =
      j.data.length := by omega
  rw [hdata, harith, List.drop_left, List.take_left]

/-- Claim C4 (confirmed): the sanitizer/parser pipeline applied to a
brace-delimited JSON object surrounded by any brace-free prefix and
suffix — in particular whitespace and triple-backtick fences with an
optional language tag — extracts exactly the bare object, so decoding
through the pipeline yields a PlanResponse equal to decoding the bare
JSON object directly, for any decoder standing for json.Unmarshal. -/
theorem c4_sanitizer_round_trip (decode : String → Option TravelPlanResponse)
    (pre j suf : String)
    (hpre : '{' ∉ pre.data) (hsuf : '}' ∉ suf.data)
    (hhead : j.data.head? = some '{') (hlast : j.data.getLast? = some '}') :
    extractJSON (pre ++ j ++ suf) = some j ∧
      (extractJSON (pre ++ j ++ suf)).bind decode = decode j := by
  have h := extractJSON_embed pre j suf hpre hsuf hhead hlast
  exact ⟨h, by rw [h]; rfl⟩

/-- Witness for C4 at the section-8 example: the fenced completion
string round-trips to the same plan as the bare JSON object. -/
theorem c4_sanitizer_round_trip_witness :
    extractJSON ("```json\n" ++ ex8Json ++ "\n```") = some ex8Json ∧
      (extractJSON ("```json\n" ++ ex8Json ++ "\n```")).bind ex8Decode = ex8Decode ex8Json :=
  c4_sanitizer_round_trip ex8Decode "```json\n" ex8Json "\n```"
    (by decide) (by decide) (by decide) (by decide)

/-- The value of the buffered completion call depends only on the
network outcome and the envelope decoder, never on the prompt text:
the prompt only feeds the outbound payload. -/
theorem callOpenRouter_args_irrel (p p' sm sm' : String) (o : HttpOutcome)
    (u : String → Option OpenRouterResponse) :
    callOpenRouter p sm o u = callOpenRouter p' sm' o u := by
  cases o <;> rfl

theorem handleRoute_post_failed (msg : String) (o : HttpOutcome)
    (ue : String → Option OpenRouterResponse) (up : String → Option TravelPlanResponse) :
    handleRoute "POST" (BodyDecode.failed msg) o ue up =
      httpErrorResult (enableCORS []) ("Invalid request body: " ++ msg) 400 [] := rfl

theorem handleRoute_post_ok (req : TravelPlanRequest) (o : HttpOutcome)
    (ue : String → Option OpenRouterResponse) (up : String → Option TravelPlanResponse) :
    handleRoute "POST" (BodyDecode.ok req) o ue up =
      match callOpenRouter (buildPrompt req) systemMessage o ue with
      | Except.error e =>
        httpErrorResult (enableCORS []) ("Failed to get response from AI: " ++ e) 500
          [(buildPrompt req, systemMessage)]
      | Except.ok ai =>
        match extractJSON ai with
        | none =>
          httpErrorResult (enableCORS [])
            "AI returned a response that could not be understood as a travel plan." 500
            [(buildPrompt req, systemMessage)]
        | some cleaned =>
          match up cleaned with
          | none =>
            httpErrorResult (enableCORS []) "AI returned an invalid format. Please try again." 500
              [(buildPrompt req, systemMessage)]
          | some tp =>
            { status := 200
            , headers := setHeader (enableCORS []) "Content-Type" "application/json"
            , errorBody := none
            , plan := some tp
            , upstreamCalls := [(buildPrompt req, systemMessage)] } := rfl

theorem extractJSON_eq_none (raw : String)
    (h : '{' ∉ raw.data ∨ '}' ∉ raw.data ∨
      ∃ i jdx, strIndex raw.data '{' = some i ∧ strLastIndex raw.data '}' = some jdx ∧ jdx < i) :
    extractJSON raw = none := by
  rcases h with h | h | ⟨i, jdx, h1, h2, hlt⟩
  · simp [extractJSON, strIndex_eq_none _ _ h]
  · cases hI : strIndex raw.data '{' <;>
      simp [extractJSON, hI, strLastIndex_eq_none _ _ h]
  · simp [extractJSON, h1, h2, hlt]

/-- Claim C5 (confirmed): when the buffered completion succeeds but its
text has no opening brace, no closing brace, or the last closing brace
precedes the first opening brace, the sanitizer fails, handleRoute
answers 500 with the malformed-output message, and no plan is
produced. -/
theorem c5_sanitizer_rejects_braceless (req : TravelPlanRequest) (o : HttpOutcome)
    (ue : String → Option OpenRouterResponse) (up : String → Option TravelPlanResponse)
    (raw : String)
    (hcall : callOpenRouter (buildPrompt req) systemMessage o ue = Except.ok raw)
    (h : '{' ∉ raw.data ∨ '}' ∉ raw.data ∨
      ∃ i jdx, strIndex raw.data '{' = some i ∧ strLastIndex raw.data '}' = some jdx ∧ jdx < i) :
    (handleRoute "POST" (BodyDecode.ok req) o ue up).status = 500 ∧
      (handleRoute "POST" (BodyDecode.ok req) o ue up).plan = none ∧
      (handleRoute "POST" (BodyDecode.ok req) o ue up).errorBody =
        some "AI returned a response that could not be understood as a travel plan.\n" := by
  simp only [handleRoute_post_ok, hcall, extractJSON_eq_none raw h]
  exact ⟨rfl, rfl, rfl⟩

/-- Witness for C5 at the two spec examples: a braceless refusal and an
inverted brace pair are both rejected with the 500 malformed-output
error and no plan. -/
theorem c5_sanitizer_rejects_braceless_witness :
    ((handleRoute "POST" (BodyDecode.ok ⟨"Delhi", "Goa", 20000⟩) (HttpOutcome.ok 200 "env")
        (fun _ => some refusalEnvelope) (fun _ => none)).status = 500 ∧
      (handleRoute "POST" (BodyDecode.ok ⟨"Delhi", "Goa", 20000⟩) (HttpOutcome.ok 200 "env")
        (fun _ => some refusalEnvelope) (fun _ => none)).plan = none ∧
      (handleRoute "POST" (BodyDecode.ok ⟨"Delhi", "Goa", 20000⟩) (HttpOutcome.ok 200 "env")
        (fun _ => some refusalEnvelope) (fun _ => none)).errorBody =
        some "AI returned a response that could not be understood as a travel plan.\n") ∧
    ((handleRoute "POST" (BodyDecode.ok ⟨"Delhi", "Goa", 20000⟩) (HttpOutcome.ok 200 "env")
        (fun _ => some invertedEnvelope) (fun _ => none)).status = 500 ∧
      (handleRoute "POST" (BodyDecode.ok ⟨"Delhi", "Goa", 20000⟩) (HttpOutcome.ok 200 "env")
        (fun _ => some invertedEnvelope) (fun _ => none)).plan = none ∧
      (handleRoute "POST" (BodyDecode.ok ⟨"Delhi", "Goa", 20000⟩) (HttpOutcome.ok 200 "env")
        (fun _ => some invertedEnvelope) (fun _ => none)).errorBody =
        some "AI returned a response that could not be understood as a travel plan.\n") :=
  ⟨c5_sanitizer_rejects_braceless ⟨"Delhi", "Goa", 20000⟩ (HttpOutcome.ok 200 "env")
      (fun _ => some refusalEnvelope) (fun _ => none) "Sorry, I cannot help." rfl
      (Or.inl (by decide)),
    c5_sanitizer_rejects_braceless ⟨"Delhi", "Goa", 20000⟩ (HttpOutcome.ok 200 "env")
      (fun _ => some invertedEnvelope) (fun _ => none) "\x7d some text \x7b" rfl
      (Or.inr (Or.inr ⟨12, 0, by decide, by decide, by decide⟩))⟩

/-- Counterexample to claim C1: the request with empty source, empty
destination and budget 0 decodes, is never rejected, and the
Completion Client is invoked for it — with a successful stubbed
upstream the endpoint even answers 200, not the claimed 400. -/
theorem c1_validation_counterexample :
    (handleRoute "POST" (BodyDecode.ok ⟨"", "", 0⟩) (HttpOutcome.ok 200 "env")
        marsUnmarshalEnvelope marsUnmarshalPlan).status = 200 ∧
      (handleRoute "POST" (BodyDecode.ok ⟨"", "", 0⟩) (HttpOutcome.ok 200 "env")
        marsUnmarshalEnvelope marsUnmarshalPlan).upstreamCalls.length = 1 :=
  ⟨rfl, rfl⟩

/-- Claim C1 as amended: the buffered endpoint rejects with 400, before
any upstream call, exactly the bodies that fail to decode; every
decoded request — whatever its source, destination or budget — causes
exactly one Completion Client invocation. -/
theorem c1_decode_is_only_validation :
    (∀ (msg : String) (o : HttpOutcome) (ue : String → Option OpenRouterResponse)
        (up : String → Option TravelPlanResponse),
        (handleRoute "POST" (BodyDecode.failed msg) o ue up).status = 400 ∧
          (handleRoute "POST" (BodyDecode.failed msg) o ue up).upstreamCalls = []) ∧
      ∀ (req : TravelPlanRequest) (o : HttpOutcome) (ue : String → Option OpenRouterResponse)
        (up : String → Option TravelPlanResponse),
        (handleRoute "POST" (BodyDecode.ok req) o ue up).upstreamCalls =
          [(buildPrompt req, systemMessage)] := by
  constructor
  · intro msg o ue up
    exact ⟨rfl, rfl⟩
  · intro req o ue up
    rw [handleRoute_post_ok]
    rcases hc : callOpenRouter (buildPrompt req) systemMessage o ue with e | ai
    · rfl
    · rcases he : extractJSON ai with _ | cleaned
      · simp only [he]
        rfl
      · rcases hu : up cleaned with _ | tp <;> simp only [he, hu] <;> rfl

/-- The plan component of a buffered response is fully determined by
the upstream outcome and the two decoders; the request only shapes the
prompt. -/
theorem handleRoute_plan (req : TravelPlanRequest) (o : HttpOutcome)
    (ue : String → Option OpenRouterResponse) (up : String → Option TravelPlanResponse) :
    (handleRoute "POST" (BodyDecode.ok req) o ue up).plan =
      match callOpenRouter "" "" o ue with
      | Except.error _ => none
      | Except.ok ai =>
        match extractJSON ai with
        | none => none
        | some cleaned => up cleaned := by
  rw [handleRoute_post_ok, callOpenRouter_args_irrel (buildPrompt req) "" systemMessage "" o ue]
  rcases hc : callOpenRouter "" "" o ue with e | ai
  · rfl
  · rcases he : extractJSON ai with _ | cleaned <;> simp only [he]
    · rfl
    · rcases hu : up cleaned with _ | tp <;> simp only [hu] <;> rfl

/-- Counterexample to claim C3: with a stubbed upstream echoing the
fields of a different trip, the response plan carries the model's
source, not the request's. -/
theorem c3_echo_counterexample :
    ((handleRoute "POST" (BodyDecode.ok ⟨"Delhi", "Goa", 20000⟩) (HttpOutcome.ok 200 "env")
        marsUnmarshalEnvelope marsUnmarshalPlan).plan.map TravelPlanResponse.source =
      some "Mars") ∧
      TravelPlanRequest.source ⟨"Delhi", "Goa", 20000⟩ = "Delhi" ∧
      ("Mars" : String) ≠ "Delhi" :=
  ⟨rfl, rfl, by decide⟩

/-- Claim C3 as amended: the plan returned by a successful buffered
request is exactly the decoding of the sanitized model output, and is
independent of the inbound request's source, destination and budget —
the fields are taken from the model, not echoed from the request. -/
theorem c3_plan_from_model_output :
    (∀ (r1 r2 : TravelPlanRequest) (o : HttpOutcome)
        (ue : String → Option OpenRouterResponse) (up : String → Option TravelPlanResponse),
        (handleRoute "POST" (BodyDecode.ok r1) o ue up).plan =
          (handleRoute "POST" (BodyDecode.ok r2) o ue up).plan) ∧
      ∀ (req : TravelPlanRequest) (o : HttpOutcome)
        (ue : String → Option OpenRouterResponse) (up : String → Option TravelPlanResponse)
        (p : TravelPlanResponse),
        (handleRoute "POST" (BodyDecode.ok req) o ue up).plan = some p →
          ∃ raw cleaned, callOpenRouter (buildPrompt req) systemMessage o ue = Except.ok raw ∧
            extractJSON raw = some cleaned ∧ up cleaned = some p := by
  constructor
  · intro r1 r2 o ue up
    rw [handleRoute_plan, handleRoute_plan]
  · intro req o ue up p hp
    rw [handleRoute_plan, callOpenRouter_args_irrel "" (buildPrompt req) "" systemMessage o ue] at hp
    rcases hc : callOpenRouter (buildPrompt req) systemMessage o ue with e | ai <;>
      simp only [hc] at hp
    · simp at hp
    · rcases he : extractJSON ai with _ | cleaned <;> simp only [he] at hp
      · simp at hp
      · exact ⟨ai, cleaned, rfl, he, hp⟩

/-- Witness for C3 as amended: at the stubbed upstream, the returned
plan is the decoding of the sanitized model output. -/
theorem c3_plan_from_model_output_witness :
    ∃ raw cleaned,
      callOpenRouter (buildPrompt ⟨"Delhi", "Goa", 20000⟩) systemMessage
        (HttpOutcome.ok 200 "env") marsUnmarshalEnvelope = Except.ok raw ∧
        extractJSON raw = some cleaned ∧ marsUnmarshalPlan cleaned = some marsPlan :=
  c3_plan_from_model_output.2 ⟨"Delhi", "Goa", 20000⟩ (HttpOutcome.ok 200 "env")
    marsUnmarshalEnvelope marsUnmarshalPlan marsPlan rfl

/-- Full characterization of a successful buffered completion call:
it returns s exactly when the transport produced status 200, the
envelope decoded, no API-level error message is set, the choice list
is non-empty and the first choice content is the non-empty s. -/
theorem callOpenRouter_ok_iff (p sm : String) (o : HttpOutcome)
    (u : String → Option OpenRouterResponse) (s : String) :
    callOpenRouter p sm o u = Except.ok s ↔
      ∃ body r c cs, o = HttpOutcome.ok 200 body ∧ u body = some r ∧
        openRouterApiErrorSet r = false ∧ r.choices = c :: cs ∧
        c.message.content = s ∧ s ≠ "" := by
  constructor
  · intro h
    cases o with
    | err m => exact absurd h (by simp [callOpenRouter])
    | ok status body =>
      simp only [callOpenRouter] at h
      by_cases hst : status = 200
      · subst hst
        rw [if_neg (fun hne : (200 : Nat) ≠ 200 => hne rfl)] at h
        cases hu : u body with
        | none =>
          simp only [hu] at h
          exact Except.noConfusion h
        | some r =>
          simp only [hu] at h
          by_cases herr : openRouterApiErrorSet r = true
          · rw [if_pos herr] at h
            exact Except.noConfusion h
          · have herr' : openRouterApiErrorSet r = false := by simpa using herr
            rw [if_neg herr] at h
            cases hch : r.choices with
            | nil =>
              simp only [hch] at h
              exact Except.noConfusion h
            | cons c cs =>
              simp only [hch] at h
              by_cases hct : c.message.content = ""
              · rw [if_pos hct] at h
                exact Except.noConfusion h
              · rw [if_neg hct] at h
                simp only [Except.ok.injEq] at h
                subst h
                exact ⟨body, r, c, cs, rfl, hu, herr', hch, rfl, hct⟩
      · rw [if_pos hst] at h
        exact Except.noConfusion h
  · rintro ⟨body, r, c, cs, rfl, hu, herr, hch, hcs, hne⟩
    subst hcs
    simp [callOpenRouter, hu, herr, hch, hne]

/-- Claim C6 (confirmed): the buffered completion call fails with an
error whenever the transport itself errors, whenever the HTTP status
is not 200, and whenever the decoded envelope has zero choices; and
any successful call returns exactly the first completion choice's
message content of a 200 response.  (Fourth conjunct: success
implies status 200, a decoded envelope, and a first choice whose
content is the returned string.) -/
theorem c6_buffered_call_spec :
    ∀ (p sm : String) (u : String → Option OpenRouterResponse),
      (∀ m : String, ∃ e, callOpenRouter p sm (HttpOutcome.err m) u = Except.error e) ∧
      (∀ (status : Nat) (body : String), status ≠ 200 →
        ∃ e, callOpenRouter p sm (HttpOutcome.ok status body) u = Except.error e) ∧
      (∀ (status : Nat) (body : String) (r : OpenRouterResponse),
        u body = some r → r.choices = [] →
        ∃ e, callOpenRouter p sm (HttpOutcome.ok status body) u = Except.error e) ∧
      ∀ (o : HttpOutcome) (s : String), callOpenRouter p sm o u = Except.ok s →
        ∃ body r c cs, o = HttpOutcome.ok 200 body ∧ u body = some r ∧
          r.choices = c :: cs ∧ s = c.message.content := by
  intro p sm u
  refine ⟨fun m => ⟨_, rfl⟩, ?_, ?_, ?_⟩
  · intro status body hst
    rcases hval : callOpenRouter p sm (HttpOutcome.ok status body) u with e | s
    · exact ⟨e, rfl⟩
    · rcases (callOpenRouter_ok_iff p sm _ u s).mp hval with ⟨body', r, c, cs, heq, _⟩
      cases heq
      exact absurd rfl hst
  · intro status body r hu hch
    rcases hval : callOpenRouter p sm (HttpOutcome.ok status body) u with e | s
    · exact ⟨e, rfl⟩
    · rcases (callOpenRouter_ok_iff p sm _ u s).mp hval with
        ⟨body', r', c, cs, heq, hu', _, hch', _⟩
      cases heq
      rw [hu] at hu'
      cases hu'
      rw [hch] at hch'
      exact absurd hch' (by simp)
  · intro o s h
    rcases (callOpenRouter_ok_iff p sm o u s).mp h with
      ⟨body, r, c, cs, heq, hu, _, hch, hcs, _⟩
    exact ⟨body, r, c, cs, heq, hu, hch, hcs.symm⟩

/-- Witness for C6: a transport error, a 429 status, and an empty
choice list each produce a failed call, and the stub success case
returns the first choice content. -/
theorem c6_buffered_call_spec_witness :
    (∃ e, callOpenRouter "p" "sm" (HttpOutcome.err "connection reset")
        marsUnmarshalEnvelope = Except.error e) ∧
      (∃ e, callOpenRouter "p" "sm" (HttpOutcome.ok 429 "rate limited")
        marsUnmarshalEnvelope = Except.error e) ∧
      (∃ e, callOpenRouter "p" "sm" (HttpOutcome.ok 200 "env")
        (fun _ => some { choices := [], error := none }) = Except.error e) ∧
      ∃ body r c cs, HttpOutcome.ok 200 "env" = HttpOutcome.ok 200 body ∧
        marsUnmarshalEnvelope body = some r ∧ r.choices = c :: cs ∧
        marsJson = c.message.content :=
  ⟨(c6_buffered_call_spec "p" "sm" marsUnmarshalEnvelope).1 "connection reset",
    (c6_buffered_call_spec "p" "sm" marsUnmarshalEnvelope).2.1 429 "rate limited" (by decide),
    (c6_buffered_call_spec "p" "sm" (fun _ => some { choices := [], error := none })).2.2.1
      200 "env" { choices := [], error := none } rfl rfl,
    (c6_buffered_call_spec "p" "sm" marsUnmarshalEnvelope).2.2.2
      (HttpOutcome.ok 200 "env") marsJson rfl⟩

/-- Claim C10 (confirmed): an HTTP-200 exchange succeeds only when the
envelope decodes with no set error message and a non-empty first
choice content (the iff gives the exact success condition), and every
failed completion call is surfaced by the buffered endpoint as a 500
response. -/
theorem c10_success_characterization :
    (∀ (p sm : String) (o : HttpOutcome) (u : String → Option OpenRouterResponse) (s : String),
        callOpenRouter p sm o u = Except.ok s ↔
          ∃ body r c cs, o = HttpOutcome.ok 200 body ∧ u body = some r ∧
            openRouterApiErrorSet r = false ∧ r.choices = c :: cs ∧
            c.message.content = s ∧ s ≠ "") ∧
      ∀ (req : TravelPlanRequest) (o : HttpOutcome)
        (ue : String → Option OpenRouterResponse) (up : String → Option TravelPlanResponse)
        (e : String),
        callOpenRouter (buildPrompt req) systemMessage o ue = Except.error e →
          (handleRoute "POST" (BodyDecode.ok req) o ue up).status = 500 := by
  refine ⟨callOpenRouter_ok_iff, ?_⟩
  intro req o ue up e hc
  simp only [handleRoute_post_ok, hc]
  rfl

/-- Witness for C10: an envelope with a set error message under HTTP
200 is not a success, an empty-content first choice is not a success,
and a transport failure surfaces as status 500 at the endpoint. -/
theorem c10_success_characterization_witness :
    callOpenRouter "p" "sm" (HttpOutcome.ok 200 "env")
        (fun _ => some { choices := [{ message := { content := "text" } }]
                       , error := some { message := "quota exceeded" } }) ≠
        Except.ok "text" ∧
      callOpenRouter "p" "sm" (HttpOutcome.ok 200 "env")
        (fun _ => some { choices := [{ message := { content := "" } }], error := none }) ≠
        Except.ok "" ∧
      (handleRoute "POST" (BodyDecode.ok ⟨"Rome", "Oslo", 5⟩) (HttpOutcome.err "timeout")
        marsUnmarshalEnvelope marsUnmarshalPlan).status = 500 :=
  ⟨fun h => by
      rcases (c10_success_characterization.1 "p" "sm" _ _ "text").mp h with
        ⟨body, r, c, cs, _, hu, herr, _⟩
      cases hu
      exact absurd herr (by decide),
    fun h => by
      rcases (c10_success_characterization.1 "p" "sm" _ _ "").mp h with
        ⟨body, r, c, cs, _, _, _, _, _, hne⟩
      exact hne rfl,
    c10_success_characterization.2 ⟨"Rome", "Oslo", 5⟩ (HttpOutcome.err "timeout")
      marsUnmarshalEnvelope marsUnmarshalPlan
      "failed to send request to OpenRouter: timeout" rfl⟩

/-- Counterexample to claim C7: the failure body written by the
buffered endpoint is the plain-text message ending in a newline, whose
first character is the letter I — it is not a JSON object (a JSON
object body would have to start with an opening brace). -/
theorem c7_error_counterexample :
    (handleRoute "POST" (BodyDecode.failed "unexpected EOF") (HttpOutcome.ok 200 "env")
        marsUnmarshalEnvelope marsUnmarshalPlan).errorBody =
      some "Invalid request body: unexpected EOF\n" ∧
      "Invalid request body: unexpected EOF\n".data.head? = some 'I' ∧
      ('I' : Char) ≠ '{' :=
  ⟨rfl, rfl, by decide⟩

/-- Claim C7 as amended: every failure response of the buffered
endpoint carries 400 exactly for body-decode failures and 500 for
upstream and parse failures, and its body is the plain-text error
message terminated by a newline, served as text/plain — not a JSON
object of shape \x7berror: string\x7d. -/
theorem c7_error_responses :
    ∀ (b : BodyDecode) (o : HttpOutcome) (ue : String → Option OpenRouterResponse)
      (up : String → Option TravelPlanResponse) (e : String),
      (handleRoute "POST" b o ue up).errorBody = some e →
        ((handleRoute "POST" b o ue up).status = 400 ∨
          (handleRoute "POST" b o ue up).status = 500) ∧
        ((handleRoute "POST" b o ue up).status = 400 ↔ ∃ m, b = BodyDecode.failed m) ∧
        getHeader (handleRoute "POST" b o ue up).headers "Content-Type" =
          some "text/plain; charset=utf-8" ∧
        ∃ m, e = m ++ "\n" := by
  intro b o ue up e he
  cases b with
  | failed msg =>
    rw [handleRoute_post_failed] at he
    simp only [httpErrorResult, Option.some_inj] at he
    exact ⟨Or.inl rfl, ⟨fun _ => ⟨msg, rfl⟩, fun _ => rfl⟩, rfl, ⟨_, he.symm⟩⟩
  | ok req =>
    rw [handleRoute_post_ok] at he ⊢
    have hno : (∃ m, BodyDecode.ok req = BodyDecode.failed m) → False := by
      rintro ⟨m, hm⟩
      exact BodyDecode.noConfusion hm
    rcases hc : callOpenRouter (buildPrompt req) systemMessage o ue with e' | ai <;>
      simp only [hc] at he ⊢
    · simp only [httpErrorResult, Option.some_inj] at he
      exact ⟨Or.inr rfl, ⟨fun h400 => absurd h400 (by simp [httpErrorResult]),
        fun h => absurd h hno⟩, rfl, ⟨_, he.symm⟩⟩
    · rcases hex : extractJSON ai with _ | cleaned <;> simp only [hex] at he ⊢
      · simp only [httpErrorResult, Option.some_inj] at he
        exact ⟨Or.inr rfl, ⟨fun h400 => absurd h400 (by simp [httpErrorResult]),
          fun h => absurd h hno⟩, rfl, ⟨_, he.symm⟩⟩
      · rcases hu : up cleaned with _ | tp <;> simp only [hu] at he ⊢
        · simp only [httpErrorResult, Option.some_inj] at he
          exact ⟨Or.inr rfl, ⟨fun h400 => absurd h400 (by simp [httpErrorResult]),
            fun h => absurd h hno⟩, rfl, ⟨_, he.symm⟩⟩
        · simp at he

/-- Witness for C7 as amended, at a decode failure: status 400, plain
text content type, and a newline-terminated plain message. -/
theorem c7_error_responses_witness :
    ((handleRoute "POST" (BodyDecode.failed "unexpected EOF") (HttpOutcome.ok 200 "env")
        marsUnmarshalEnvelope marsUnmarshalPlan).status = 400 ∨
      (handleRoute "POST" (BodyDecode.failed "unexpected EOF") (HttpOutcome.ok 200 "env")
        marsUnmarshalEnvelope marsUnmarshalPlan).status = 500) ∧
      ((handleRoute "POST" (BodyDecode.failed "unexpected EOF") (HttpOutcome.ok 200 "env")
        marsUnmarshalEnvelope marsUnmarshalPlan).status = 400 ↔
        ∃ m, BodyDecode.failed "unexpected EOF" = BodyDecode.failed m) ∧
      getHeader (handleRoute "POST" (BodyDecode.failed "unexpected EOF") (HttpOutcome.ok 200 "env")
        marsUnmarshalEnvelope marsUnmarshalPlan).headers "Content-Type" =
        some "text/plain; charset=utf-8" ∧
      ∃ m, "Invalid request body: unexpected EOF\n" = m ++ "\n" :=
  c7_error_responses (BodyDecode.failed "unexpected EOF") (HttpOutcome.ok 200 "env")
    marsUnmarshalEnvelope marsUnmarshalPlan "Invalid request body: unexpected EOF\n" rfl

/-- Every handleRoute response carries one of exactly three header
maps: the bare CORS set (preflight), the CORS set plus the plain-text
error headers, or the CORS set plus the JSON content type. -/
theorem handleRoute_headers_cases :
    ∀ (method : String) (b : BodyDecode) (o : HttpOutcome)
      (ue : String → Option OpenRouterResponse) (up : String → Option TravelPlanResponse),
      (handleRoute method b o ue up).headers = enableCORS [] ∨
        (handleRoute method b o ue up).headers =
          setHeader (setHeader (enableCORS []) "Content-Type" "text/plain; charset=utf-8")
            "X-Content-Type-Options" "nosniff" ∨
        (handleRoute method b o ue up).headers =
          setHeader (enableCORS []) "Content-Type" "application/json" := by
  intro method b o ue up
  simp only [handleRoute, httpErrorResult]
  repeat' split
  all_goals simp

/-- Counterexample to claim C8: the allowed-methods CORS header is
POST, OPTIONS — its value does not even contain the letter G, so it
cannot list GET. -/
theorem c8_cors_counterexample :
    getHeader (handleRoute "OPTIONS" (BodyDecode.failed "") (HttpOutcome.err "")
        (fun _ => none) (fun _ => none)).headers "Access-Control-Allow-Methods" =
      some "POST, OPTIONS" ∧
      'G' ∉ "POST, OPTIONS".data :=
  ⟨rfl, by decide⟩

/-- Claim C8 as amended: every response from the handler carries the
CORS headers Access-Control-Allow-Origin *, Access-Control-Allow-
Methods POST, OPTIONS (GET is not listed), and
Access-Control-Allow-Headers Content-Type, Authorization. -/
theorem c8_cors_headers :
    ∀ (method : String) (b : BodyDecode) (o : HttpOutcome)
      (ue : String → Option OpenRouterResponse) (up : String → Option TravelPlanResponse),
      getHeader (handleRoute method b o ue up).headers "Access-Control-Allow-Origin" =
          some "*" ∧
        getHeader (handleRoute method b o ue up).headers "Access-Control-Allow-Methods" =
          some "POST, OPTIONS" ∧
        getHeader (handleRoute method b o ue up).headers "Access-Control-Allow-Headers" =
          some "Content-Type, Authorization" := by
  intro method b o ue up
  rcases handleRoute_headers_cases method b o ue up with h | h | h <;> rw [h] <;>
    exact ⟨rfl, rfl, rfl⟩

theorem digitChar_isDigit (d : Nat) (h : d < 10) : (digitChar d).isDigit = true := by
  interval_cases d <;> decide

theorem natCharsAux_digits :
    ∀ (fuel n : Nat) (acc : List Char), (∀ c ∈ acc, c.isDigit = true) →
      ∀ c ∈ natCharsAux fuel n acc, c.isDigit = true := by
  intro fuel
  induction fuel with
  | zero => exact fun n acc hacc c hc => hacc c hc
  | succ f ih =>
    intro n acc hacc c hc
    simp only [natCharsAux] at hc
    by_cases h10 : n < 10
    · rw [if_pos h10] at hc
      rcases List.mem_cons.mp hc with rfl | hmem
      · exact digitChar_isDigit n h10
      · exact hacc c hmem
    · rw [if_neg h10] at hc
      refine ih (n / 10) (digitChar (n % 10) :: acc) ?_ c hc
      intro c' hc'
      rcases List.mem_cons.mp hc' with rfl | h'
      · exact digitChar_isDigit _ (Nat.mod_lt _ (by omega))
      · exact hacc c' h'

theorem natChars_digits (n : Nat) : ∀ c ∈ natChars n, c.isDigit = true :=
  natCharsAux_digits (n + 1) n [] (fun c hc => absurd hc (List.not_mem_nil c))

theorem isDigit_ne_dot (c : Char) (h : c.isDigit = true) : c ≠ '.' := by
  intro heq
  rw [heq] at h
  exact absurd h (by decide)

theorem twoDecimal_of_shape (pre : List Char) (d1 d2 : Char)
    (h1 : d1.isDigit = true) (h2 : d2.isDigit = true)
    (hpre : ∀ c ∈ pre, c ≠ '.') :
    twoDecimal (String.mk (pre ++ '.' :: [d1, d2])) = true := by
  have hrev : (String.mk (pre ++ '.' :: [d1, d2])).data.reverse =
      d2 :: d1 :: '.' :: pre.reverse := by
    show (pre ++ '.' :: [d1, d2]).reverse = d2 :: d1 :: '.' :: pre.reverse
    rw [List.reverse_append]
    rfl
  unfold twoDecimal
  rw [hrev]
  simp only [h1, h2, Bool.true_and, beq_self_eq_true, List.all_eq_true]
  intro c hc
  have hne : c ≠ '.' := hpre c (List.mem_reverse.mp hc)
  simpa using hne

theorem twoDecimal_formatFloat2 (q : Rat) : twoDecimal (formatFloat2 q) = true := by
  unfold formatFloat2 formatFloat2Chars twoDigitChars
  have hm : (round (|q| * 100)).toNat % 100 < 100 := Nat.mod_lt _ (by omega)
  apply twoDecimal_of_shape
  · exact digitChar_isDigit _ (by omega)
  · exact digitChar_isDigit _ (Nat.mod_lt _ (by omega))
  · intro c hc
    rcases List.mem_append.mp hc with h | h
    · revert h
      split
      · intro h
        rcases List.mem_singleton.mp h with rfl
        decide
      · intro h
        exact absurd h (List.not_mem_nil c)
    · exact isDigit_ne_dot c (natChars_digits _ c h)

/-- Claim C9 (confirmed): prompt construction is a pure function of
the request fields — two requests with equal source, destination and
budget produce the identical system message and user prompt — and the
budget is rendered with exactly two decimal places. -/
theorem c9_prompt_deterministic :
    ∀ r1 r2 : TravelPlanRequest,
      r1.source = r2.source → r1.destination = r2.destination → r1.budget = r2.budget →
      (systemMessage, buildPrompt r1) = (systemMessage, buildPrompt r2) ∧
        twoDecimal (formatFloat2 r1.budget) = true := by
  intro r1 r2 hs hd hb
  cases r1
  cases r2
  simp only at hs hd hb
  subst hs
  subst hd
  subst hb
  exact ⟨rfl, twoDecimal_formatFloat2 _⟩

/-- Witness for C9 at a concrete request. -/
theorem c9_prompt_deterministic_witness :
    (systemMessage, buildPrompt ⟨"Delhi", "Goa", 20000⟩) =
        (systemMessage, buildPrompt ⟨"Delhi", "Goa", 20000⟩) ∧
      twoDecimal (formatFloat2 (TravelPlanRequest.budget ⟨"Delhi", "Goa", 20000⟩)) = true :=
  c9_prompt_deterministic ⟨"Delhi", "Goa", 20000⟩ ⟨"Delhi", "Goa", 20000⟩ rfl rfl rfl

/-- Counterexample to claim C2: no streaming endpoint exists — the
path /api/route-stream is not among the routes registered by main. -/
theorem c2_route_stream_counterexample : "/api/route-stream" ∉ registeredRoutes := by
  decide

/-- Claim C2 as amended: the HTTP surface registers exactly one route,
the buffered POST /api/route; in particular no /api/route-stream
streaming endpoint is exposed. -/
theorem c2_registered_routes :
    registeredRoutes = ["/api/route"] ∧ "/api/route-stream" ∉ registeredRoutes :=
  ⟨rfl, by decide⟩
